import Mathlib

/-!
# nopoll listener bootstrap (`src/nopoll_listener.c`)

A shallow embedding of `nopoll_listener_sock_listen`, `nopoll_listener_new`
and `nopoll_listener_from_socket`.

The C functions talk to the operating system and to the C library.  Their
answers are taken from an environment `Env` (one field per external call);
the effects of the calls are recorded in a `State`: the set of open
descriptors, the sequence of external calls made so far, and the heap of
`noPollConn` objects.  A call that dereferences a NULL pointer ends the run
with `Outcome.fault`.

`nopoll_log` only writes to the diagnostic sink; it is not recorded.
Memory allocation (`nopoll_new`, `strdup`, `nopoll_strdup_printf`) is taken
to succeed.
-/

namespace Nopoll

/-! ## Platform, addresses, C library -/

/-- Compile-time and hardware switches the source depends on. -/
structure Platform where
  /-- Whether `NOPOLL_OS_WIN32` is defined. -/
  win32 : Bool
  /-- Host byte order is network byte order. -/
  bigEndian : Bool
deriving DecidableEq, Repr

/-- The C `struct in_addr`: the four bytes of an IPv4 address, in memory order. -/
structure in_addr where
  b1 : Fin 256
  b2 : Fin 256
  b3 : Fin 256
  b4 : Fin 256
deriving DecidableEq, Repr

/-- The C `struct sockaddr_in` with `sin_family = AF_INET`; `sin_port` is the
16-bit field as the host reads it. -/
structure sockaddr_in where
  sin_port : Nat
  sin_addr : in_addr
deriving DecidableEq, Repr

/-- The C `struct hostent`, of which only `h_addr_list` is read. -/
structure hostent where
  h_addr_list : List in_addr
deriving DecidableEq, Repr

/-- Modelled from the spec: the constant `NOPOLL_SOCKET_ERROR` is declared in a
header that is not part of the sources at hand; it is the socket error
value -1 that `bind` and `listen` return on failure. -/
def NOPOLL_SOCKET_ERROR : Int := -1

/-- The C `htons` on a 16-bit value: the two bytes are swapped on a little-endian
host. -/
def htons (p : Platform) (x : Nat) : Nat :=
  if p.bigEndian then x % 65536 else (x % 256) * 256 + (x / 256) % 256

/-- The C `ntohs`, the same byte swap as `htons`. -/
def ntohs (p : Platform) (x : Nat) : Nat :=
  if p.bigEndian then x % 65536 else (x % 256) * 256 + (x / 256) % 256

/-- The C `inet_ntoa`: dotted-quad text of an address. -/
def inet_ntoa (a : in_addr) : String :=
  toString a.b1.val ++ "." ++ toString a.b2.val ++ "." ++
    toString a.b3.val ++ "." ++ toString a.b4.val

/-- The C `isspace` in the C locale. -/
def isspace (c : Char) : Bool :=
  c.toNat = 32 || (9 ≤ c.toNat && c.toNat ≤ 13)

/-- Value of the longest prefix of decimal digits, continuing from `acc`. -/
def digitsValue : Nat → List Char → Nat
  | acc, [] => acc
  | acc, c :: cs =>
    if c.isDigit then digitsValue (acc * 10 + (c.toNat - 48)) cs else acc

/-- The integer `atoi` reads: leading white space is skipped, one sign is
accepted, then the longest run of digits is converted. -/
def atoiValue (s : String) : Int :=
  match s.toList.dropWhile isspace with
  | [] => 0
  | c :: cs =>
    if c = '-' then - (digitsValue 0 cs : Int)
    else if c = '+' then (digitsValue 0 cs : Int)
    else (digitsValue 0 (c :: cs) : Int)

/-- The C `atoi`.  When the value does not fit in `int` the C standard leaves the
result open; `overflow` is what the C library at hand returns then. -/
def atoi (overflow : String → Int) (s : String) : Int :=
  if -2147483648 ≤ atoiValue s ∧ atoiValue s ≤ 2147483647 then atoiValue s
  else overflow s

/-- Whether a text starts with a decimal digit. -/
def startsWithDigit : List Char → Bool
  | [] => false
  | c :: _ => c.isDigit

/-- Whether a text, after leading white space and one optional sign, starts
with a decimal digit. -/
def startsWithNumber (s : String) : Bool :=
  match s.toList.dropWhile isspace with
  | [] => false
  | c :: cs => if c = '-' ∨ c = '+' then startsWithDigit cs else startsWithDigit (c :: cs)

/-! ## Library objects -/

/-- Modelled from the spec: the type `noPollCtx` is declared in a header that
is not part of the sources at hand; the listener code reads its `backlog`
field, the configured listen backlog.  The field `id` stands for the address
of the object. -/
structure noPollCtx where
  id : Nat
  backlog : Int
deriving DecidableEq, Repr

/-- Modelled from the spec: the type `noPollRole` is declared in a header that
is not part of the sources at hand; the listener code uses the primary
listener and the accepted listener roles, and `NOPOLL_ROLE_UNKNOWN` is the
zero value. -/
inductive noPollRole
  | NOPOLL_ROLE_UNKNOWN
  | NOPOLL_ROLE_CLIENT
  | NOPOLL_ROLE_LISTENER
  | NOPOLL_ROLE_MAIN_LISTENER
deriving DecidableEq, Repr

/-- Modelled from the spec: the default send and receive strategies are
defined outside the sources at hand; only their identity matters here. -/
inductive Handler
  | nopoll_conn_default_receive
  | nopoll_conn_default_send
deriving DecidableEq, Repr

/-- Modelled from the spec: the type `noPollConn` is declared in a header that
is not part of the sources at hand; these are the fields the listener code
writes.  Pointer fields are `none` when NULL. -/
structure noPollConn where
  refs : Int
  session : Int
  ctx : Option noPollCtx
  role : noPollRole
  host : Option String
  port : Option String
  receive : Option Handler
  send : Option Handler
deriving DecidableEq, Repr

/-- The object `nopoll_new (noPollConn, 1)` returns: all bytes zero. -/
def noPollConn.zero : noPollConn :=
  { refs := 0, session := 0, ctx := none, role := .NOPOLL_ROLE_UNKNOWN,
    host := none, port := none, receive := none, send := none }

/-! ## Environment and state -/

/-- Answers of the operating system and the C library. -/
structure Env where
  platform : Platform
  /-- Result of `gethostbyname`: `none` is the NULL result. -/
  gethostbyname : String → Option hostent
  /-- Result of `socket (AF_INET, SOCK_STREAM, 0)`. -/
  socket : Int
  /-- Result of `bind` on a descriptor and address. -/
  bind : Int → sockaddr_in → Int
  /-- Result of `listen` on a descriptor with a backlog. -/
  listen : Int → Int → Int
  /-- Result of `getsockname` and the content of `sin` after the call. -/
  getsockname : Int → Int × sockaddr_in
  /-- Result of `getpeername` and the content of `sin` after the call. -/
  getpeername : Int → Int × sockaddr_in
  /-- Result of `atoi` on a text whose value does not fit in `int`. -/
  atoi_overflow : String → Int

/-- External calls that are recorded. -/
inductive Call
  | gethostbyname (host : String)
  | socket (res : Int)
  | setsockopt (fd : Int)
  | bind (fd : Int) (saddr : sockaddr_in) (res : Int)
  | listen (fd : Int) (backlog : Int) (res : Int)
  | getsockname (fd : Int) (res : Int)
  | getpeername (fd : Int) (res : Int)
  | close (fd : Int)
  | register (ctx : noPollCtx) (conn : Nat)
deriving DecidableEq, Repr

/-- Observable state: open descriptors, calls made (oldest first), and the
heap of connection objects (a pointer is an index into it). -/
structure State where
  open_fds : Finset Int
  trace : List Call
  heap : List noPollConn
deriving DecidableEq

/-- Result of running a C function. -/
inductive Outcome (α : Type)
  /-- The function returned `v`, leaving state `s`. -/
  | ret (v : α) (s : State)
  /-- A NULL pointer was dereferenced. -/
  | fault
deriving DecidableEq

/-- Record one external call. -/
def State.call (s : State) (c : Call) : State :=
  { s with trace := s.trace ++ [c] }

/-- Effect of `socket` returning `fd`: a non-negative result is a newly
open descriptor. -/
def State.socket (s : State) (fd : Int) : State :=
  { open_fds := if 0 ≤ fd then insert fd s.open_fds else s.open_fds,
    trace := s.trace ++ [Call.socket fd], heap := s.heap }

/-- Modelled from the spec: `nopoll_close_socket` is declared in a header that
is not part of the sources at hand; it closes the descriptor. -/
def State.nopoll_close_socket (s : State) (fd : Int) : State :=
  { open_fds := s.open_fds.erase fd,
    trace := s.trace ++ [Call.close fd], heap := s.heap }

/-- Modelled from the spec: `nopoll_new` is declared in a header that is not
part of the sources at hand; `nopoll_new (noPollConn, 1)` gives a pointer to
a new zeroed object. -/
def State.nopoll_new (s : State) : Nat × State :=
  (s.heap.length, { s with heap := s.heap ++ [noPollConn.zero] })

/-- Write through a connection pointer. -/
def State.store (s : State) (p : Nat) (f : noPollConn → noPollConn) : State :=
  { s with heap := s.heap.modify f p }

/-- Modelled from the spec: `nopoll_ctx_register_conn` is defined outside
the sources at hand; the context's registration operation is recorded as a
call with the context and the handle. -/
def State.nopoll_ctx_register_conn (s : State) (ctx : noPollCtx) (p : Nat) : State :=
  s.call (Call.register ctx p)

/-- Registration calls recorded in a trace, oldest first. -/
def registered (t : List Call) : List (noPollCtx × Nat) :=
  t.filterMap fun c =>
    match c with
    | Call.register ctx p => some (ctx, p)
    | _ => none

/-! ## The functions of `nopoll_listener.c` -/

/-- The local `int_port` of `nopoll_listener_sock_listen`:
`(uint16_t) atoi (port)`. -/
def int_port (e : Env) (port : String) : Nat :=
  (atoi e.atoi_overflow port % 65536).toNat

/-- The function `nopoll_listener_sock_listen (ctx, host, port)`, lines 45-124.

The macro `nopoll_return_val_if_fail (ctx, expr, val)` is declared in a
header that is not part of the sources at hand; it returns `val` when `expr`
is false.  In the third check, `port || strlen (port) == 0`, the call
`strlen (port)` is evaluated exactly when `port` is NULL. -/
def nopoll_listener_sock_listen (e : Env) (s : State) (ctx : Option noPollCtx)
    (host port : Option String) : Outcome Int :=
  match ctx with
  | none => .ret (-2) s
  | some c =>
  match host with
  | none => .ret (-2) s
  | some h =>
  match port with
  | none => .fault
  | some p =>
    -- resolve hostname
    let s := s.call (Call.gethostbyname h)
    match e.gethostbyname h with
    | none => .ret (-1) s
    | some he =>
      let haddr := he.h_addr_list.head?
      let fd := e.socket
      let s := s.socket fd
      if fd ≤ 2 then .ret (-1) s
      else
        let s := if e.platform.win32 then s else s.call (Call.setsockopt fd)
        -- get integer port
        let int_port := int_port e p
        match haddr with
        | none => .fault
        | some a =>
          let saddr : sockaddr_in :=
            { sin_port := htons e.platform int_port, sin_addr := a }
          -- call to bind
          let bind_res := e.bind fd saddr
          let s := s.call (Call.bind fd saddr bind_res)
          if bind_res = NOPOLL_SOCKET_ERROR then
            .ret (-1) (s.nopoll_close_socket fd)
          else
            let listen_res := e.listen fd c.backlog
            let s := s.call (Call.listen fd c.backlog listen_res)
            if listen_res = NOPOLL_SOCKET_ERROR then .ret (-1) s
            else
              let s := s.call (Call.getsockname fd (e.getsockname fd).1)
              if (e.getsockname fd).1 < -1 then .ret (-1) s
              else .ret fd s

/-- The function `nopoll_listener_new (ctx, host, port)`, lines 137-172; the
result is the pointer to the listener, `none` for NULL. -/
def nopoll_listener_new (e : Env) (s : State) (ctx : Option noPollCtx)
    (host port : Option String) : Outcome (Option Nat) :=
  match ctx, host with
  | none, _ => .ret none s
  | some _, none => .ret none s
  | some c, some h =>
    -- call to create the socket
    match nopoll_listener_sock_listen e s (some c) (some h) port with
    | .fault => .fault
    | .ret session s =>
      if session = -1 then .ret none s
      else
        let (listener, s) := s.nopoll_new
        let s := s.store listener fun l => { l with refs := 1 }
        let s := s.store listener fun l => { l with session := session }
        let s := s.store listener fun l => { l with ctx := some c }
        let s := s.store listener fun l => { l with role := .NOPOLL_ROLE_MAIN_LISTENER }
        -- record host and port
        let s := s.store listener fun l => { l with host := some h }
        match port with
        | none => .fault
        | some p =>
          let s := s.store listener fun l => { l with port := some p }
          -- register connection into context
          let s := s.nopoll_ctx_register_conn c listener
          -- configure default handlers
          let s := s.store listener fun l =>
            { l with receive := some .nopoll_conn_default_receive }
          let s := s.store listener fun l =>
            { l with send := some .nopoll_conn_default_send }
          .ret (some listener) s

/-- The function `nopoll_listener_from_socket (ctx, session)`, lines 184-227;
the result is the pointer to the listener, `none` for NULL (`nopoll_false`
is the integer 0). -/
def nopoll_listener_from_socket (e : Env) (s : State) (ctx : Option noPollCtx)
    (session : Int) : Outcome (Option Nat) :=
  match ctx with
  | none => .ret none s
  | some c =>
    if ¬ (session > 0) then .ret none s
    else
      let (listener, s) := s.nopoll_new
      let s := s.store listener fun l => { l with refs := 1 }
      let s := s.store listener fun l => { l with session := session }
      let s := s.store listener fun l => { l with ctx := some c }
      let s := s.store listener fun l => { l with role := .NOPOLL_ROLE_LISTENER }
      -- get peer value
      let r := e.getpeername session
      let s := s.call (Call.getpeername session r.1)
      if r.1 < -1 then .ret none s
      else
        let sin := r.2
        -- record host and port
        let s := s.store listener fun l =>
          { l with host := some (inet_ntoa sin.sin_addr) }
        let s := s.store listener fun l =>
          { l with port := some (toString (ntohs e.platform sin.sin_port)) }
        -- register connection into context
        let s := s.nopoll_ctx_register_conn c listener
        -- configure default handlers
        let s := s.store listener fun l =>
          { l with receive := some .nopoll_conn_default_receive }
        let s := s.store listener fun l =>
          { l with send := some .nopoll_conn_default_send }
        .ret (some listener) s

/-! ## Sample environments -/

/-- The loopback address. -/
def loopback : in_addr := { b1 := 127, b2 := 0, b3 := 0, b4 := 1 }

/-- A little-endian unix host on which every call succeeds: `localhost` and
`127.0.0.1` resolve to the loopback address, `socket` returns 3, the local
address query reports port 40000 and the peer address query reports
`192.168.1.20`, port 51000. -/
def env_ok : Env :=
  { platform := { win32 := false, bigEndian := false },
    gethostbyname := fun h =>
      if h = "127.0.0.1" ∨ h = "localhost" then some { h_addr_list := [loopback] }
      else none,
    socket := 3,
    bind := fun _ _ => 0,
    listen := fun _ _ => 0,
    getsockname := fun _ => (0, { sin_port := 16540, sin_addr := loopback }),
    getpeername := fun _ =>
      (0, { sin_port := 14535, sin_addr := { b1 := 192, b2 := 168, b3 := 1, b4 := 20 } }),
    atoi_overflow := fun _ => -1 }

/-- As `env_ok`, but `bind` fails. -/
def env_bind_fails : Env :=
  { env_ok with bind := fun _ _ => -1 }

/-- As `env_ok`, but `getsockname` and `getpeername` fail with -1 and leave
`sin` as it was. -/
def env_query_fails : Env :=
  { env_ok with
    getsockname := fun _ =>
      (-1, { sin_port := 0, sin_addr := { b1 := 0, b2 := 0, b3 := 0, b4 := 0 } }),
    getpeername := fun _ =>
      (-1, { sin_port := 0, sin_addr := { b1 := 0, b2 := 0, b3 := 0, b4 := 0 } }) }

/-- A process with the three standard descriptors open and nothing else. -/
def s0 : State := { open_fds := {0, 1, 2}, trace := [], heap := [] }

/-- A context with backlog 5. -/
def ctx0 : noPollCtx := { id := 1, backlog := 5 }

/-! ## Helper lemmas -/

theorem registered_append (t u : List Call) :
    registered (t ++ u) = registered t ++ registered u := by
  simp [registered, List.filterMap_append]

theorem modify_append_length {α : Type} (f : α → α) (l : List α) (a : α) :
    (l ++ [a]).modify f l.length = l ++ [f a] := by
  induction l with
  | nil => rfl
  | cons x xs ih => simp [ih]

theorem ntohs_lt (p : Platform) (x : Nat) : ntohs p x < 65536 := by
  unfold ntohs
  split <;> omega

theorem ntohs_htons (p : Platform) (x : Nat) (h : x < 65536) :
    ntohs p (htons p x) = x := by
  unfold ntohs htons
  split
  · omega
  · have h1 : x / 256 % 256 = x / 256 := Nat.mod_eq_of_lt (by omega)
    have h2 : (x % 256 * 256 + x / 256) % 256 = x / 256 := by omega
    have h3 : (x % 256 * 256 + x / 256) / 256 = x % 256 := by omega
    rw [h1, h2, h3, Nat.mod_mod]
    omega

theorem int_port_lt (e : Env) (port : String) : int_port e port < 65536 := by
  unfold int_port
  omega

/-- Every returning run of `nopoll_listener_sock_listen` leaves the heap and
the registrations as they were and returns -2, -1 or a descriptor above 2;
-2 is returned only for a NULL context or host. -/
theorem sock_listen_ret (e : Env) (s : State) (ctx : Option noPollCtx)
    (host port : Option String) (v : Int) (s1 : State)
    (h : nopoll_listener_sock_listen e s ctx host port = .ret v s1) :
    s1.heap = s.heap ∧ registered s1.trace = registered s.trace ∧
      ((v = -2 ∧ (ctx = none ∨ host = none)) ∨ v = -1 ∨ 2 < v) := by
  unfold nopoll_listener_sock_listen at h
  cases ctx with
  | none => simp at h; obtain ⟨rfl, rfl⟩ := h; simp
  | some c =>
  cases host with
  | none => simp at h; obtain ⟨rfl, rfl⟩ := h; simp
  | some hn =>
  cases port with
  | none => simp at h
  | some p =>
    simp only at h
    split at h
    · simp at h; obtain ⟨rfl, rfl⟩ := h; simp [State.call, registered_append, registered]
    · split at h
      · simp at h; obtain ⟨rfl, rfl⟩ := h
        simp [State.call, State.socket, registered_append, registered]
      · split at h
        · simp at h
        · split at h
          · simp at h; obtain ⟨rfl, rfl⟩ := h
            cases hw : e.platform.win32 <;>
              simp [State.call, State.socket, State.nopoll_close_socket,
                registered_append, registered]
          · split at h
            · simp at h; obtain ⟨rfl, rfl⟩ := h
              cases hw : e.platform.win32 <;>
                simp [State.call, State.socket, registered_append, registered]
            · split at h
              · simp at h; obtain ⟨rfl, rfl⟩ := h
                cases hw : e.platform.win32 <;>
                  simp [State.call, State.socket, registered_append, registered]
              · simp at h; obtain ⟨rfl, rfl⟩ := h
                rename_i hfd _ _ _ _ _
                cases hw : e.platform.win32 <;>
                  simp [State.call, State.socket, registered_append, registered]
                all_goals omega

/-- The state a fully successful run of `nopoll_listener_sock_listen` ends
in: the descriptor is open and the calls were made in source order. -/
theorem sock_listen_success (e : Env) (s : State) (c : noPollCtx) (h p : String)
    (he : hostent) (a : in_addr)
    (hres : e.gethostbyname h = some he) (ha : he.h_addr_list.head? = some a)
    (hfd : 2 < e.socket)
    (hb : e.bind e.socket { sin_port := htons e.platform (int_port e p), sin_addr := a }
      ≠ NOPOLL_SOCKET_ERROR)
    (hl : e.listen e.socket c.backlog ≠ NOPOLL_SOCKET_ERROR)
    (hg : ¬ (e.getsockname e.socket).1 < -1) :
    nopoll_listener_sock_listen e s (some c) (some h) (some p) =
      .ret e.socket
        { open_fds := insert e.socket s.open_fds,
          trace := s.trace ++ [Call.gethostbyname h, Call.socket e.socket] ++
            (if e.platform.win32 then [] else [Call.setsockopt e.socket]) ++
            [Call.bind e.socket
                { sin_port := htons e.platform (int_port e p), sin_addr := a }
                (e.bind e.socket
                  { sin_port := htons e.platform (int_port e p), sin_addr := a }),
              Call.listen e.socket c.backlog (e.listen e.socket c.backlog),
              Call.getsockname e.socket (e.getsockname e.socket).1],
          heap := s.heap } := by
  have h0 : 0 ≤ e.socket := by omega
  have h2 : ¬ e.socket ≤ 2 := by omega
  unfold nopoll_listener_sock_listen
  cases hw : e.platform.win32 <;>
    simp [hres, ha, h0, h2, hb, hl, hg, hw, State.call, State.socket]

/-- A run of `nopoll_listener_sock_listen` that returns neither -1 nor -2
went through every step: resolution gave a first address, `socket` gave the
returned descriptor, which is above 2, and `bind` and `listen` succeeded. -/
theorem sock_listen_ret_fd (e : Env) (s : State) (ctx : Option noPollCtx)
    (host port : Option String) (v : Int) (s1 : State)
    (hrun : nopoll_listener_sock_listen e s ctx host port = .ret v s1)
    (h1 : v ≠ -1) (h2 : v ≠ -2) :
    ∃ c h p he a, ctx = some c ∧ host = some h ∧ port = some p ∧
      e.gethostbyname h = some he ∧ he.h_addr_list.head? = some a ∧
      e.socket = v ∧ 2 < v ∧
      e.bind v { sin_port := htons e.platform (int_port e p), sin_addr := a }
        ≠ NOPOLL_SOCKET_ERROR ∧
      e.listen v c.backlog ≠ NOPOLL_SOCKET_ERROR ∧
      s1 =
        { open_fds := insert v s.open_fds,
          trace := s.trace ++ [Call.gethostbyname h, Call.socket v] ++
            (if e.platform.win32 then [] else [Call.setsockopt v]) ++
            [Call.bind v
                { sin_port := htons e.platform (int_port e p), sin_addr := a }
                (e.bind v
                  { sin_port := htons e.platform (int_port e p), sin_addr := a }),
              Call.listen v c.backlog (e.listen v c.backlog),
              Call.getsockname v (e.getsockname v).1],
          heap := s.heap } := by
  unfold nopoll_listener_sock_listen at hrun
  cases ctx with
  | none => simp at hrun; omega
  | some c =>
  cases host with
  | none => simp at hrun; omega
  | some hn =>
  cases port with
  | none => simp at hrun
  | some p =>
    simp only at hrun
    split at hrun
    · simp at hrun; omega
    · rename_i he hres
      split at hrun
      · simp at hrun; omega
      · rename_i hfd
        split at hrun
        · simp at hrun
        · rename_i a ha
          split at hrun
          · simp at hrun; omega
          · rename_i hb
            split at hrun
            · simp at hrun; omega
            · rename_i hl
              split at hrun
              · simp at hrun; omega
              · simp only [Outcome.ret.injEq] at hrun
                obtain ⟨hv, hs⟩ := hrun
                have h0 : 0 ≤ e.socket := by omega
                refine ⟨c, hn, p, he, a, rfl, rfl, rfl, hres, ha, hv, by omega, ?_, ?_, ?_⟩
                · rw [← hv]; exact hb
                · rw [← hv]; exact hl
                · rw [← hs, ← hv]
                  cases hw : e.platform.win32 <;>
                    simp [h0, State.call, State.socket]

/-- What `nopoll_listener_new` does once the socket factory has returned a
value other than -1: a new object is filled in, registered and returned. -/
theorem listener_new_of_sock_listen (e : Env) (s : State) (c : noPollCtx)
    (h p : String) (v : Int) (s1 : State)
    (hrun : nopoll_listener_sock_listen e s (some c) (some h) (some p) = .ret v s1)
    (hv : v ≠ -1) :
    nopoll_listener_new e s (some c) (some h) (some p) =
      .ret (some s1.heap.length)
        { open_fds := s1.open_fds,
          trace := s1.trace ++ [Call.register c s1.heap.length],
          heap := s1.heap ++
            [{ refs := 1, session := v, ctx := some c,
               role := noPollRole.NOPOLL_ROLE_MAIN_LISTENER,
               host := some h, port := some p,
               receive := some Handler.nopoll_conn_default_receive,
               send := some Handler.nopoll_conn_default_send }] } := by
  unfold nopoll_listener_new
  simp [hrun, hv, State.nopoll_new, State.store, State.nopoll_ctx_register_conn,
    State.call, modify_append_length, noPollConn.zero]

/-- What `nopoll_listener_from_socket` does when the check on the result of
`getpeername` lets the run continue. -/
theorem listener_from_socket_built (e : Env) (s : State) (c : noPollCtx)
    (session : Int) (hs : 0 < session) (hg : ¬ (e.getpeername session).1 < -1) :
    nopoll_listener_from_socket e s (some c) session =
      .ret (some s.heap.length)
        { open_fds := s.open_fds,
          trace := s.trace ++ [Call.getpeername session (e.getpeername session).1,
            Call.register c s.heap.length],
          heap := s.heap ++
            [{ refs := 1, session := session, ctx := some c,
               role := noPollRole.NOPOLL_ROLE_LISTENER,
               host := some (inet_ntoa (e.getpeername session).2.sin_addr),
               port := some (toString (ntohs e.platform (e.getpeername session).2.sin_port)),
               receive := some Handler.nopoll_conn_default_receive,
               send := some Handler.nopoll_conn_default_send }] } := by
  unfold nopoll_listener_from_socket
  simp [hs, hg, State.nopoll_new, State.store, State.nopoll_ctx_register_conn,
    State.call, modify_append_length, noPollConn.zero]

/-! ## Port text -/

theorem digitChar_digit (m : Nat) (h : m < 10) :
    (Nat.digitChar m).isDigit = true ∧ (Nat.digitChar m).toNat - 48 = m := by
  interval_cases m <;> decide

theorem digit_not_space (c : Char) (h : c.isDigit = true) :
    isspace c = false ∧ c ≠ '-' ∧ c ≠ '+' := by
  have h1 : 48 ≤ c.toNat ∧ c.toNat ≤ 57 := by
    simpa [Char.isDigit, UInt32.le_def, Char.toNat] using h
  refine ⟨?_, ?_, ?_⟩
  · simp [isspace]; omega
  · rintro rfl; revert h1; decide
  · rintro rfl; revert h1; decide

theorem digitsValue_toDigitsCore (fuel : Nat) :
    ∀ n ds, n < fuel → digitsValue 0 (Nat.toDigitsCore 10 fuel n ds) = digitsValue n ds := by
  induction fuel with
  | zero => intro n ds h; omega
  | succ fuel ih =>
    intro n ds h
    obtain ⟨hd, hv⟩ := digitChar_digit (n % 10) (Nat.mod_lt _ (by decide))
    unfold Nat.toDigitsCore
    simp only
    split
    · rename_i h0
      simp only [digitsValue, hd, if_true, hv]
      congr 1
      omega
    · rename_i h0
      rw [ih _ _ (by omega)]
      simp only [digitsValue, hd, if_true, hv]
      congr 1
      omega

theorem toDigitsCore_head (fuel : Nat) :
    ∀ n d ds, d.isDigit = true →
      ∃ c rest, Nat.toDigitsCore 10 fuel n (d :: ds) = c :: rest ∧ c.isDigit = true := by
  induction fuel with
  | zero => intro n d ds h; exact ⟨d, ds, rfl, h⟩
  | succ fuel ih =>
    intro n d ds h
    obtain ⟨hd, _⟩ := digitChar_digit (n % 10) (Nat.mod_lt _ (by decide))
    unfold Nat.toDigitsCore
    simp only
    split
    · exact ⟨_, _, rfl, hd⟩
    · exact ih _ _ _ hd

theorem toDigits_head (n : Nat) :
    ∃ c rest, Nat.toDigits 10 n = c :: rest ∧ c.isDigit = true := by
  obtain ⟨hd, _⟩ := digitChar_digit (n % 10) (Nat.mod_lt _ (by decide))
  unfold Nat.toDigits Nat.toDigitsCore
  simp only
  split
  · exact ⟨_, _, rfl, hd⟩
  · exact toDigitsCore_head _ _ _ _ hd

theorem digitsValue_append (l : List Char) : ∀ (acc : Nat) (g : List Char),
    startsWithDigit g = false →
    digitsValue acc (l ++ g) = digitsValue acc l := by
  induction l with
  | nil =>
    intro acc g hg
    cases g with
    | nil => rfl
    | cons c cs =>
      have hc : c.isDigit = false := hg
      simp [digitsValue, hc]
  | cons x xs ih =>
    intro acc g hg
    simp only [List.cons_append, digitsValue]
    split
    · exact ih _ _ hg
    · rfl

theorem atoiValue_toString (n : Nat) (g : String)
    (hg : startsWithDigit g.toList = false) :
    atoiValue (toString n ++ g) = n := by
  have hv : digitsValue 0 (Nat.toDigits 10 n ++ g.toList) = n := by
    rw [digitsValue_append _ _ _ hg]
    unfold Nat.toDigits
    rw [digitsValue_toDigitsCore _ _ _ (by omega)]
    rfl
  obtain ⟨c, rest, hc, hd⟩ := toDigits_head n
  obtain ⟨h1, h2, h3⟩ := digit_not_space c hd
  have hl : (toString n ++ g).toList = c :: (rest ++ g.toList) := by
    show (Nat.repr n ++ g).toList = _
    simp [Nat.repr, hc, String.toList, List.asString]
  unfold atoiValue
  rw [hl]
  simp only [List.dropWhile, h1, h2, h3, if_false]
  rw [hc] at hv
  simpa using hv


theorem atoiValue_neg_toString (n : Nat) (g : String)
    (hg : startsWithDigit g.toList = false) :
    atoiValue ("-" ++ (toString n ++ g)) = - (n : Int) := by
  have hv : digitsValue 0 (Nat.toDigits 10 n ++ g.toList) = n := by
    rw [digitsValue_append _ _ _ hg]
    unfold Nat.toDigits
    rw [digitsValue_toDigitsCore _ _ _ (by omega)]
    rfl
  have hl : ("-" ++ (toString n ++ g)).toList = '-' :: (Nat.toDigits 10 n ++ g.toList) := by
    show ("-" ++ (Nat.repr n ++ g)).toList = _
    simp [Nat.repr, String.toList, List.asString]
  have hsp : isspace '-' = false := by decide
  unfold atoiValue
  rw [hl]
  simp only [List.dropWhile, hsp, if_true, hv]

theorem atoiValue_no_number (p : String) (hp : startsWithNumber p = false) :
    atoiValue p = 0 := by
  have hz : ∀ cs : List Char, startsWithDigit cs = false → digitsValue 0 cs = 0 := by
    intro cs hcs
    cases cs with
    | nil => rfl
    | cons d ds =>
      have hd : d.isDigit = false := hcs
      simp [digitsValue, hd]
  unfold startsWithNumber at hp
  unfold atoiValue
  split
  · rfl
  · rename_i c cs heq
    rw [heq] at hp
    simp only at hp
    split
    · rename_i hm
      simp only [hm, true_or, if_true] at hp
      simp [hz cs hp]
    · split
      · rename_i hm
        simp only [hm, or_true, if_true] at hp
        simp [hz cs hp]
      · rename_i hm1 hm2
        simp only [hm1, hm2, or_self, if_false] at hp
        exact_mod_cast hz (c :: cs) hp

theorem int_port_of_value (e : Env) (p : String)
    (h : -2147483648 ≤ atoiValue p ∧ atoiValue p ≤ 2147483647) :
    (int_port e p : Int) = atoiValue p % 65536 := by
  unfold int_port atoi
  rw [if_pos h]
  omega

theorem sock_listen_bind_call (e : Env) (s : State) (c : noPollCtx) (h p : String)
    (v : Int) (s1 : State)
    (hrun : nopoll_listener_sock_listen e s (some c) (some h) (some p) = .ret v s1)
    (fd : Int) (saddr : sockaddr_in) (res : Int)
    (hmem : Call.bind fd saddr res ∈ s1.trace.drop s.trace.length) :
    saddr.sin_port = htons e.platform (int_port e p) ∧
      ∃ he, e.gethostbyname h = some he ∧ he.h_addr_list.head? = some saddr.sin_addr := by
  unfold nopoll_listener_sock_listen at hrun
  simp only at hrun
  split at hrun
  · simp at hrun; obtain ⟨_, rfl⟩ := hrun
    simp [State.call] at hmem
  · rename_i he hres
    split at hrun
    · simp at hrun; obtain ⟨_, rfl⟩ := hrun
      simp [State.call, State.socket] at hmem
    · split at hrun
      · simp at hrun
      · rename_i a ha
        have key : ∀ post : List Call, (∀ x ∈ post, ∀ f sa r, x ≠ Call.bind f sa r) →
            s1.trace = s.trace ++ [Call.gethostbyname h, Call.socket e.socket] ++
              (if e.platform.win32 then [] else [Call.setsockopt e.socket]) ++
              [Call.bind e.socket
                { sin_port := htons e.platform (int_port e p), sin_addr := a }
                (e.bind e.socket
                  { sin_port := htons e.platform (int_port e p), sin_addr := a })] ++ post →
            saddr.sin_port = htons e.platform (int_port e p) ∧
              ∃ he, e.gethostbyname h = some he ∧
                he.h_addr_list.head? = some saddr.sin_addr := by
          intro post hpost htr
          rw [htr] at hmem
          cases hw : e.platform.win32 <;> simp [hw] at hmem
          all_goals
            rcases hmem with hmem | hmem
            · obtain ⟨_, rfl, _⟩ := hmem
              exact ⟨rfl, he, hres, ha⟩
            · exact absurd rfl (hpost _ hmem fd saddr res)
        split at hrun
        · simp at hrun; obtain ⟨_, rfl⟩ := hrun
          apply key [Call.close e.socket] (by simp)
          cases hw : e.platform.win32 <;>
            simp [State.call, State.socket, State.nopoll_close_socket]
        · split at hrun
          · simp at hrun; obtain ⟨_, rfl⟩ := hrun
            apply key [Call.listen e.socket c.backlog (e.listen e.socket c.backlog)] (by simp)
            cases hw : e.platform.win32 <;> simp [State.call, State.socket]
          · split at hrun
            · simp at hrun; obtain ⟨_, rfl⟩ := hrun
              apply key [Call.listen e.socket c.backlog (e.listen e.socket c.backlog),
                Call.getsockname e.socket (e.getsockname e.socket).1] (by simp)
              cases hw : e.platform.win32 <;> simp [State.call, State.socket]
            · simp at hrun; obtain ⟨_, rfl⟩ := hrun
              apply key [Call.listen e.socket c.backlog (e.listen e.socket c.backlog),
                Call.getsockname e.socket (e.getsockname e.socket).1] (by simp)
              cases hw : e.platform.win32 <;> simp [State.call, State.socket]

/-! ## Claims -/

/-- Claim C3: whenever `nopoll_listener_sock_listen` reports a negative
value on the arguments of `nopoll_listener_new`, `nopoll_listener_new`
returns NULL, leaves the heap as it was (no handle is built) and registers
nothing; and when `nopoll_listener_new` returns a handle, the socket factory
returned a descriptor above 2 that is open and on which `bind` and `listen`
were called and did not fail. -/
theorem listener_new_null_on_failure (e : Env) (s : State)
    (ctx : Option noPollCtx) (host port : Option String) :
    (∀ v s1, nopoll_listener_sock_listen e s ctx host port = .ret v s1 → v < 0 →
      ∃ s2, nopoll_listener_new e s ctx host port = .ret none s2 ∧
        s2.heap = s.heap ∧ registered s2.trace = registered s.trace) ∧
    (∀ l s2, nopoll_listener_new e s ctx host port = .ret (some l) s2 →
      ∃ fd s1 c saddr rb rl pre post,
        nopoll_listener_sock_listen e s ctx host port = .ret fd s1 ∧
        2 < fd ∧ fd ∈ s1.open_fds ∧ fd ∈ s2.open_fds ∧ ctx = some c ∧
        rb ≠ NOPOLL_SOCKET_ERROR ∧ rl ≠ NOPOLL_SOCKET_ERROR ∧
        s1.trace = s.trace ++ pre ++
          [Call.bind fd saddr rb, Call.listen fd c.backlog rl] ++ post ∧
        (s2.heap[l]?).map (fun o => o.session) = some fd) := by
  constructor
  · intro v s1 hrun hneg
    cases ctx with
    | none => exact ⟨s, by simp [nopoll_listener_new], rfl, rfl⟩
    | some c =>
    cases host with
    | none => exact ⟨s, by simp [nopoll_listener_new], rfl, rfl⟩
    | some h =>
      obtain ⟨hheap, hreg, hv⟩ := sock_listen_ret e s _ _ _ v s1 hrun
      have hv1 : v = -1 := by
        rcases hv with ⟨_, hn⟩ | hv | hv
        · simp at hn
        · exact hv
        · omega
      subst hv1
      exact ⟨s1, by simp [nopoll_listener_new, hrun], hheap, hreg⟩
  · intro l s2 hnew
    cases ctx with
    | none => simp [nopoll_listener_new] at hnew
    | some c =>
    cases host with
    | none => simp [nopoll_listener_new] at hnew
    | some h =>
      cases hrun : nopoll_listener_sock_listen e s (some c) (some h) port with
      | fault => simp [nopoll_listener_new, hrun] at hnew
      | ret v s1 =>
        by_cases hv1 : v = -1
        · simp [nopoll_listener_new, hrun, hv1] at hnew
        · obtain ⟨_, _, hv⟩ := sock_listen_ret e s _ _ _ v s1 hrun
          have hv2 : v ≠ -2 := by
            rcases hv with ⟨_, hn⟩ | hv | hv
            · simp at hn
            · exact absurd hv hv1
            · omega
          obtain ⟨c1, h1, p, he, a, hc, hh, hp, _, _, _, hgt, hb, hl, hs1⟩ :=
            sock_listen_ret_fd e s _ _ _ v s1 hrun hv1 hv2
          simp only [Option.some.injEq] at hc hh
          subst hc hh hp
          have hnew2 := listener_new_of_sock_listen e s c h p v s1 hrun hv1
          rw [hnew2] at hnew
          simp only [Outcome.ret.injEq, Option.some.injEq] at hnew
          obtain ⟨hl1, hs2⟩ := hnew
          subst hs2 hl1
          refine ⟨v, s1, c,
            { sin_port := htons e.platform (int_port e p), sin_addr := a },
            e.bind v { sin_port := htons e.platform (int_port e p), sin_addr := a },
            e.listen v c.backlog,
            [Call.gethostbyname h, Call.socket v] ++
              (if e.platform.win32 then [] else [Call.setsockopt v]),
            [Call.getsockname v (e.getsockname v).1],
            rfl, hgt, ?_, ?_, rfl, hb, hl, ?_, ?_⟩
          · rw [hs1]; simp
          · rw [hs1]; simp
          · rw [hs1]; simp
          · simp

/-- Witness for C3: with a NULL host the socket factory reports -2, with an
unknown host it reports -1, and `nopoll_listener_new` returns NULL in both
runs; with `127.0.0.1` and port `80` a handle on descriptor 3 is returned. -/
theorem listener_new_null_on_failure_witness :
    (nopoll_listener_sock_listen env_ok s0 (some ctx0) none (some "80") = .ret (-2) s0 ∧
      (-2 : Int) < 0 ∧
      ∃ s2, nopoll_listener_new env_ok s0 (some ctx0) none (some "80") = .ret none s2 ∧
        s2.heap = s0.heap ∧ registered s2.trace = registered s0.trace) ∧
    (nopoll_listener_sock_listen env_ok s0 (some ctx0) (some "no.such.host") (some "80") =
        .ret (-1) { open_fds := {0, 1, 2}, trace := [Call.gethostbyname "no.such.host"],
                    heap := [] } ∧
      (-1 : Int) < 0 ∧
      ∃ s2, nopoll_listener_new env_ok s0 (some ctx0) (some "no.such.host") (some "80") =
          .ret none s2 ∧
        s2.heap = s0.heap ∧ registered s2.trace = registered s0.trace) ∧
    (nopoll_listener_new env_ok s0 (some ctx0) (some "127.0.0.1") (some "80") =
        .ret (some 0)
          { open_fds := insert 3 {0, 1, 2},
            trace := [Call.gethostbyname "127.0.0.1", Call.socket 3, Call.setsockopt 3,
              Call.bind 3 { sin_port := 20480, sin_addr := loopback } 0,
              Call.listen 3 5 0, Call.getsockname 3 0, Call.register ctx0 0],
            heap := [{ refs := 1, session := 3, ctx := some ctx0,
                       role := noPollRole.NOPOLL_ROLE_MAIN_LISTENER,
                       host := some "127.0.0.1", port := some "80",
                       receive := some Handler.nopoll_conn_default_receive,
                       send := some Handler.nopoll_conn_default_send }] } ∧
      ∃ fd s1 c saddr rb rl pre post,
        nopoll_listener_sock_listen env_ok s0 (some ctx0) (some "127.0.0.1") (some "80") =
          .ret fd s1 ∧
        2 < fd ∧ fd ∈ s1.open_fds ∧ fd ∈ (insert 3 {0, 1, 2} : Finset Int) ∧
        some ctx0 = some c ∧
        rb ≠ NOPOLL_SOCKET_ERROR ∧ rl ≠ NOPOLL_SOCKET_ERROR ∧
        s1.trace = s0.trace ++ pre ++
          [Call.bind fd saddr rb, Call.listen fd c.backlog rl] ++ post ∧
        (([{ refs := 1, session := 3, ctx := some ctx0,
             role := noPollRole.NOPOLL_ROLE_MAIN_LISTENER,
             host := some "127.0.0.1", port := some "80",
             receive := some Handler.nopoll_conn_default_receive,
             send := some Handler.nopoll_conn_default_send }] : List noPollConn)[0]?).map
          (fun o => o.session) = some fd) :=
  ⟨⟨rfl, by decide,
      (listener_new_null_on_failure env_ok s0 (some ctx0) none (some "80")).1
        (-2) s0 rfl (by decide)⟩,
    ⟨rfl, by decide,
      (listener_new_null_on_failure env_ok s0 (some ctx0) (some "no.such.host")
        (some "80")).1 (-1) _ rfl (by decide)⟩,
    ⟨rfl,
      (listener_new_null_on_failure env_ok s0 (some ctx0) (some "127.0.0.1")
        (some "80")).2 0 _ rfl⟩⟩

/-- Claim C4: when `gethostbyname` fails for the host, the run of
`nopoll_listener_sock_listen` returns -1 having made the resolution call and
no other: `socket`, `bind` and `listen` are not called, and the set of open
descriptors is the one before the call. -/
theorem sock_listen_resolution_failure (e : Env) (s : State) (c : noPollCtx)
    (h p : String) (hres : e.gethostbyname h = none) :
    nopoll_listener_sock_listen e s (some c) (some h) (some p) =
      .ret (-1)
        { open_fds := s.open_fds, trace := s.trace ++ [Call.gethostbyname h],
          heap := s.heap } := by
  unfold nopoll_listener_sock_listen
  simp [hres, State.call]

/-- Witness for C4: the host `no.such.host` does not resolve. -/
theorem sock_listen_resolution_failure_witness :
    env_ok.gethostbyname "no.such.host" = none ∧
    nopoll_listener_sock_listen env_ok s0 (some ctx0) (some "no.such.host") (some "8080") =
      .ret (-1)
        { open_fds := s0.open_fds,
          trace := s0.trace ++ [Call.gethostbyname "no.such.host"],
          heap := s0.heap } :=
  ⟨by decide,
    sock_listen_resolution_failure env_ok s0 ctx0 "no.such.host" "8080" (by decide)⟩

/-- Claim C5: when `socket` returned a descriptor `fd` above 2 that was not
open before and `bind` on it fails, the run of `nopoll_listener_sock_listen`
returns -1, its last two calls are the failed `bind` and the close of `fd`,
`listen` is not called, and the set of open descriptors after the call is
the one before it. -/
theorem sock_listen_bind_failure (e : Env) (s : State) (c : noPollCtx)
    (h p : String) (he : hostent) (a : in_addr)
    (hres : e.gethostbyname h = some he) (ha : he.h_addr_list.head? = some a)
    (hfd : 2 < e.socket) (hfresh : e.socket ∉ s.open_fds)
    (hb : e.bind e.socket { sin_port := htons e.platform (int_port e p), sin_addr := a }
      = NOPOLL_SOCKET_ERROR) :
    nopoll_listener_sock_listen e s (some c) (some h) (some p) =
      .ret (-1)
        { open_fds := s.open_fds,
          trace := s.trace ++ [Call.gethostbyname h, Call.socket e.socket] ++
            (if e.platform.win32 then [] else [Call.setsockopt e.socket]) ++
            [Call.bind e.socket
                { sin_port := htons e.platform (int_port e p), sin_addr := a }
                NOPOLL_SOCKET_ERROR,
              Call.close e.socket],
          heap := s.heap } := by
  have h0 : 0 ≤ e.socket := by omega
  have h2 : ¬ e.socket ≤ 2 := by omega
  unfold nopoll_listener_sock_listen
  cases hw : e.platform.win32 <;>
    simp [hres, ha, h0, h2, hb, hw, State.call, State.socket,
      State.nopoll_close_socket, Finset.erase_insert hfresh]

/-- Witness for C5: on `env_bind_fails` descriptor 3 is created, `bind`
fails, and 3 is closed again. -/
theorem sock_listen_bind_failure_witness :
    env_bind_fails.gethostbyname "127.0.0.1" = some { h_addr_list := [loopback] } ∧
    ({ h_addr_list := [loopback] } : hostent).h_addr_list.head? = some loopback ∧
    2 < env_bind_fails.socket ∧ env_bind_fails.socket ∉ s0.open_fds ∧
    env_bind_fails.bind env_bind_fails.socket
      { sin_port := htons env_bind_fails.platform (int_port env_bind_fails "8080"),
        sin_addr := loopback } = NOPOLL_SOCKET_ERROR ∧
    nopoll_listener_sock_listen env_bind_fails s0 (some ctx0) (some "127.0.0.1")
        (some "8080") =
      .ret (-1)
        { open_fds := s0.open_fds,
          trace := s0.trace ++
            [Call.gethostbyname "127.0.0.1", Call.socket env_bind_fails.socket] ++
            (if env_bind_fails.platform.win32 then []
              else [Call.setsockopt env_bind_fails.socket]) ++
            [Call.bind env_bind_fails.socket
                { sin_port := htons env_bind_fails.platform (int_port env_bind_fails "8080"),
                  sin_addr := loopback }
                NOPOLL_SOCKET_ERROR,
              Call.close env_bind_fails.socket],
          heap := s0.heap } :=
  ⟨by decide, rfl, by decide, by decide, rfl,
    sock_listen_bind_failure env_bind_fails s0 ctx0 "127.0.0.1" "8080"
      { h_addr_list := [loopback] } loopback (by decide) rfl (by decide) (by decide) rfl⟩

/-- Claim C6: when the socket factory succeeds with descriptor `fd` for a
non-null context, host and port, `nopoll_listener_new` returns a pointer to
a new object with reference count 1, descriptor `fd`, the given context,
role `NOPOLL_ROLE_MAIN_LISTENER`, the caller's host and port strings and the
default receive and send handlers; the objects that existed before are
untouched and the run adds exactly one registration, of that pointer with
that context. -/
theorem listener_new_success (e : Env) (s : State) (c : noPollCtx)
    (h p : String) (fd : Int) (s1 : State)
    (hrun : nopoll_listener_sock_listen e s (some c) (some h) (some p) = .ret fd s1)
    (hfd : 0 ≤ fd) :
    ∃ l s2, nopoll_listener_new e s (some c) (some h) (some p) = .ret (some l) s2 ∧
      s2.heap[l]? =
        some { refs := 1, session := fd, ctx := some c,
               role := noPollRole.NOPOLL_ROLE_MAIN_LISTENER,
               host := some h, port := some p,
               receive := some Handler.nopoll_conn_default_receive,
               send := some Handler.nopoll_conn_default_send } ∧
      l = s.heap.length ∧ s2.heap.take l = s.heap ∧
      registered s2.trace = registered s.trace ++ [(c, l)] := by
  obtain ⟨hheap, hreg, _⟩ := sock_listen_ret e s _ _ _ fd s1 hrun
  have hv : fd ≠ -1 := by omega
  refine ⟨s1.heap.length, _, listener_new_of_sock_listen e s c h p fd s1 hrun hv,
    ?_, ?_, ?_, ?_⟩
  · simp
  · rw [hheap]
  · simp [hheap]
  · rw [registered_append, hreg, hheap]
    rfl

/-- Witness for C6: host `127.0.0.1`, port `8080` on `env_ok`. -/
theorem listener_new_success_witness :
    nopoll_listener_sock_listen env_ok s0 (some ctx0) (some "127.0.0.1") (some "8080") =
      .ret 3
        { open_fds := insert 3 {0, 1, 2},
          trace := [Call.gethostbyname "127.0.0.1", Call.socket 3, Call.setsockopt 3,
            Call.bind 3 { sin_port := 36895, sin_addr := loopback } 0,
            Call.listen 3 5 0, Call.getsockname 3 0],
          heap := [] } ∧
    (0 : Int) ≤ 3 ∧
    ∃ l s2, nopoll_listener_new env_ok s0 (some ctx0) (some "127.0.0.1") (some "8080") =
        .ret (some l) s2 ∧
      s2.heap[l]? =
        some { refs := 1, session := 3, ctx := some ctx0,
               role := noPollRole.NOPOLL_ROLE_MAIN_LISTENER,
               host := some "127.0.0.1", port := some "8080",
               receive := some Handler.nopoll_conn_default_receive,
               send := some Handler.nopoll_conn_default_send } ∧
      l = s0.heap.length ∧ s2.heap.take l = s0.heap ∧
      registered s2.trace = registered s0.trace ++ [(ctx0, l)] :=
  ⟨rfl, by decide,
    listener_new_success env_ok s0 ctx0 "127.0.0.1" "8080" 3 _ rfl (by decide)⟩

/-- Claim C7: for a non-null context and a descriptor `session > 0` whose
peer-address query succeeds (returns 0) with address `A` and port field `P`,
`nopoll_listener_from_socket` returns a pointer to a new object with
reference count 1, descriptor `session`, the given context, role
`NOPOLL_ROLE_LISTENER`, host the dotted-quad text of `A`, port the decimal
text of `ntohs P`, which is below 65536, and the default handlers; the run
adds exactly one registration, of that pointer with that context. -/
theorem listener_from_socket_success (e : Env) (s : State) (c : noPollCtx)
    (session : Int) (A : in_addr) (P : Nat) (hs : 0 < session)
    (hpeer : e.getpeername session = (0, { sin_port := P, sin_addr := A })) :
    ∃ l s2, nopoll_listener_from_socket e s (some c) session = .ret (some l) s2 ∧
      s2.heap[l]? =
        some { refs := 1, session := session, ctx := some c,
               role := noPollRole.NOPOLL_ROLE_LISTENER,
               host := some (toString A.b1.val ++ "." ++ toString A.b2.val ++ "." ++
                 toString A.b3.val ++ "." ++ toString A.b4.val),
               port := some (toString (ntohs e.platform P)),
               receive := some Handler.nopoll_conn_default_receive,
               send := some Handler.nopoll_conn_default_send } ∧
      ntohs e.platform P < 65536 ∧
      l = s.heap.length ∧ s2.heap.take l = s.heap ∧
      registered s2.trace = registered s.trace ++ [(c, l)] := by
  have hg : ¬ (e.getpeername session).1 < -1 := by
    rw [hpeer]
    show ¬ (0 : Int) < -1
    decide
  refine ⟨s.heap.length, _, listener_from_socket_built e s c session hs hg,
    ?_, ntohs_lt _ _, rfl, ?_, ?_⟩
  · simp [hpeer, inet_ntoa]
  · simp
  · simp [registered_append, registered]

/-- Witness for C7: descriptor 7 on `env_ok`, whose peer is
`192.168.1.20`, port 51000. -/
theorem listener_from_socket_success_witness :
    (0 : Int) < 7 ∧
    env_ok.getpeername 7 =
      (0, { sin_port := 14535, sin_addr := { b1 := 192, b2 := 168, b3 := 1, b4 := 20 } }) ∧
    ∃ l s2, nopoll_listener_from_socket env_ok s0 (some ctx0) 7 = .ret (some l) s2 ∧
      s2.heap[l]? =
        some { refs := 1, session := 7, ctx := some ctx0,
               role := noPollRole.NOPOLL_ROLE_LISTENER,
               host := some (toString (192 : Fin 256).val ++ "." ++
                 toString (168 : Fin 256).val ++ "." ++
                 toString (1 : Fin 256).val ++ "." ++ toString (20 : Fin 256).val),
               port := some (toString (ntohs env_ok.platform 14535)),
               receive := some Handler.nopoll_conn_default_receive,
               send := some Handler.nopoll_conn_default_send } ∧
      ntohs env_ok.platform 14535 < 65536 ∧
      l = s0.heap.length ∧ s2.heap.take l = s0.heap ∧
      registered s2.trace = registered s0.trace ++ [(ctx0, l)] :=
  ⟨by decide, rfl,
    listener_from_socket_success env_ok s0 ctx0 7
      { b1 := 192, b2 := 168, b3 := 1, b4 := 20 } 14535 (by decide) rfl⟩

/-- Claim C1, which the code does not meet: on `env_query_fails` resolution,
`socket`, `bind` and `listen` succeed and `getsockname` returns the socket
error value -1, yet `nopoll_listener_sock_listen` returns the descriptor 3
and not a negative value, because the source tests the result with
`< -1`. -/
theorem sock_listen_getsockname_failure_returns_fd :
    (env_query_fails.getsockname 3).1 = NOPOLL_SOCKET_ERROR ∧
    nopoll_listener_sock_listen env_query_fails s0 (some ctx0) (some "127.0.0.1")
        (some "8080") =
      .ret 3
        { open_fds := insert 3 {0, 1, 2},
          trace := [Call.gethostbyname "127.0.0.1", Call.socket 3, Call.setsockopt 3,
            Call.bind 3 { sin_port := 36895, sin_addr := loopback } 0,
            Call.listen 3 5 0, Call.getsockname 3 (-1)],
          heap := [] } :=
  ⟨rfl, rfl⟩

/-- Claim C2, which the code does not meet: on `env_query_fails`
`getpeername` returns the socket error value -1 for descriptor 7, yet
`nopoll_listener_from_socket` returns a handle, built from the content of
`sin` that the failed call left behind, and registers it, because the source
tests the result with `< -1`. -/
theorem listener_from_socket_getpeername_failure_builds_handle :
    (env_query_fails.getpeername 7).1 = NOPOLL_SOCKET_ERROR ∧
    nopoll_listener_from_socket env_query_fails s0 (some ctx0) 7 =
      .ret (some 0)
        { open_fds := {0, 1, 2},
          trace := [Call.getpeername 7 (-1), Call.register ctx0 0],
          heap := [{ refs := 1, session := 7, ctx := some ctx0,
                     role := noPollRole.NOPOLL_ROLE_LISTENER,
                     host := some "0.0.0.0", port := some "0",
                     receive := some Handler.nopoll_conn_default_receive,
                     send := some Handler.nopoll_conn_default_send }] } :=
  ⟨rfl, rfl⟩

/-- Claim C10, which the code does not meet: with a NULL port
`nopoll_listener_new` never binds port 80; for every environment, state,
context and host the run ends in the NULL dereference of `strlen (port)`,
whereas the same call with port `80` binds port 80 (`htons 80 = 20480`) and
returns a handle. -/
theorem listener_new_null_port_faults :
    (∀ (e : Env) (s : State) (c : noPollCtx) (h : String),
      nopoll_listener_new e s (some c) (some h) none = .fault) ∧
    nopoll_listener_new env_ok s0 (some ctx0) (some "127.0.0.1") (some "80") =
      .ret (some 0)
        { open_fds := insert 3 {0, 1, 2},
          trace := [Call.gethostbyname "127.0.0.1", Call.socket 3, Call.setsockopt 3,
            Call.bind 3 { sin_port := htons env_ok.platform 80, sin_addr := loopback } 0,
            Call.listen 3 5 0, Call.getsockname 3 0, Call.register ctx0 0],
          heap := [{ refs := 1, session := 3, ctx := some ctx0,
                     role := noPollRole.NOPOLL_ROLE_MAIN_LISTENER,
                     host := some "127.0.0.1", port := some "80",
                     receive := some Handler.nopoll_conn_default_receive,
                     send := some Handler.nopoll_conn_default_send }] } :=
  ⟨fun _ _ _ _ => rfl, rfl⟩

/-- Claim C8 fails as stated: for host `localhost` and port `0` on `env_ok`
the call succeeds, `getsockname` reports port 40000 on the loopback address
`127.0.0.1`, and the handle holds port `0` and host `localhost`. -/
theorem listener_new_port_zero_counterexample :
    ∃ l s2 o,
      nopoll_listener_new env_ok s0 (some ctx0) (some "localhost") (some "0") =
        .ret (some l) s2 ∧
      s2.heap[l]? = some o ∧
      toString (ntohs env_ok.platform (env_ok.getsockname 3).2.sin_port) = "40000" ∧
      env_ok.gethostbyname "localhost" = some { h_addr_list := [loopback] } ∧
      inet_ntoa loopback = "127.0.0.1" ∧
      o.port = some "0" ∧ o.host = some "localhost" ∧
      o.port ≠ some (toString (ntohs env_ok.platform (env_ok.getsockname 3).2.sin_port)) ∧
      o.host ≠ some (inet_ntoa loopback) :=
  ⟨0, _, _, rfl, rfl, by decide, by decide, by decide, rfl, rfl, by decide, by decide⟩

/-- Claim C8 as amended: for every successful `nopoll_listener_new` call
whose port text is empty or `0`, the handle's port attribute is that port
text itself (empty or `0`) and its host attribute is the caller's host
text, whatever `getsockname` reported. -/
theorem listener_new_records_caller_text (e : Env) (s : State) (c : noPollCtx)
    (h p : String) (l : Nat) (s2 : State)
    (hnew : nopoll_listener_new e s (some c) (some h) (some p) = .ret (some l) s2)
    (hp : p = "" ∨ p = "0") :
    ∃ o, s2.heap[l]? = some o ∧ o.port = some p ∧ o.host = some h ∧
      (o.port = some "" ∨ o.port = some "0") := by
  cases hrun : nopoll_listener_sock_listen e s (some c) (some h) (some p) with
  | fault => simp [nopoll_listener_new, hrun] at hnew
  | ret v s1 =>
    by_cases hv1 : v = -1
    · simp [nopoll_listener_new, hrun, hv1] at hnew
    · rw [listener_new_of_sock_listen e s c h p v s1 hrun hv1] at hnew
      simp only [Outcome.ret.injEq, Option.some.injEq] at hnew
      obtain ⟨hl1, hs2⟩ := hnew
      subst hs2 hl1
      refine ⟨{ refs := 1, session := v, ctx := some c,
                role := noPollRole.NOPOLL_ROLE_MAIN_LISTENER,
                host := some h, port := some p,
                receive := some Handler.nopoll_conn_default_receive,
                send := some Handler.nopoll_conn_default_send }, by simp, rfl, rfl, ?_⟩
      rcases hp with hp | hp <;> simp [hp]

/-- Witness for the amended C8: host `localhost`, port `0` on `env_ok`. -/
theorem listener_new_records_caller_text_witness :
    nopoll_listener_new env_ok s0 (some ctx0) (some "localhost") (some "0") =
      .ret (some 0)
        { open_fds := insert 3 {0, 1, 2},
          trace := [Call.gethostbyname "localhost", Call.socket 3, Call.setsockopt 3,
            Call.bind 3 { sin_port := 0, sin_addr := loopback } 0,
            Call.listen 3 5 0, Call.getsockname 3 0, Call.register ctx0 0],
          heap := [{ refs := 1, session := 3, ctx := some ctx0,
                     role := noPollRole.NOPOLL_ROLE_MAIN_LISTENER,
                     host := some "localhost", port := some "0",
                     receive := some Handler.nopoll_conn_default_receive,
                     send := some Handler.nopoll_conn_default_send }] } ∧
    (("0" : String) = "" ∨ ("0" : String) = "0") ∧
    ∃ o, ([{ refs := 1, session := 3, ctx := some ctx0,
             role := noPollRole.NOPOLL_ROLE_MAIN_LISTENER,
             host := some "localhost", port := some "0",
             receive := some Handler.nopoll_conn_default_receive,
             send := some Handler.nopoll_conn_default_send }] : List noPollConn)[0]? = some o ∧
      o.port = some "0" ∧ o.host = some "localhost" ∧
      (o.port = some "" ∨ o.port = some "0") :=
  ⟨rfl, Or.inr rfl,
    listener_new_records_caller_text env_ok s0 ctx0 "localhost" "0" 0 _ rfl (Or.inr rfl)⟩

/-- Claim C9 fails as stated: for the port text `80abc` (digits followed by
garbage) the run binds port 80, not 0; the text `-1` gives port 65535 and
the text `70000` gives port 4464. -/
theorem sock_listen_bind_port_counterexample :
    ∃ s1, nopoll_listener_sock_listen env_ok s0 (some ctx0) (some "127.0.0.1")
        (some "80abc") = .ret 3 s1 ∧
      Call.bind 3 { sin_port := 20480, sin_addr := loopback } 0 ∈ s1.trace ∧
      ntohs env_ok.platform 20480 = 80 ∧
      int_port env_ok "80abc" = 80 ∧ int_port env_ok "80abc" ≠ 0 ∧
      int_port env_ok "-1" = 65535 ∧ int_port env_ok "70000" = 4464 :=
  ⟨_, rfl, by decide, by decide, by decide, by decide, by decide, by decide⟩

/-- Claim C9 as amended: the port passed to `bind` is `(uint16_t) atoi (port)`,
a value below 65536 that is `atoi`'s value modulo 65536 when that value fits
in `int`.  It is the requested number when the text is the decimal text of a
number in 0..65535, also when that text is followed by something that does
not start with a digit; a number up to 2147483647 is reduced modulo 65536; a
negative number down to -2147483648 is reduced modulo 65536 into 0..65535; a
text that does not start, after white space and one optional sign, with a
digit (the empty text among them) gives 0.  In every returning run each
`bind` call carries that port in network byte order and the first address of
the resolution result. -/
theorem sock_listen_bind_port (e : Env) (p : String) :
    int_port e p < 65536 ∧
    (-2147483648 ≤ atoiValue p ∧ atoiValue p ≤ 2147483647 →
      (int_port e p : Int) = atoiValue p % 65536) ∧
    (∀ (n : Nat) (g : String), n ≤ 65535 → startsWithDigit g.toList = false →
      p = toString n ++ g → int_port e p = n) ∧
    (∀ (n : Nat) (g : String), n ≤ 2147483647 → startsWithDigit g.toList = false →
      p = toString n ++ g → int_port e p = n % 65536) ∧
    (∀ (n : Nat) (g : String), n ≤ 2147483648 → startsWithDigit g.toList = false →
      p = "-" ++ (toString n ++ g) → (int_port e p : Int) = (-(n : Int)) % 65536) ∧
    (startsWithNumber p = false → int_port e p = 0) ∧
    (∀ (s : State) (c : noPollCtx) (h : String) (v : Int) (s1 : State)
        (fd : Int) (saddr : sockaddr_in) (res : Int),
      nopoll_listener_sock_listen e s (some c) (some h) (some p) = .ret v s1 →
      Call.bind fd saddr res ∈ s1.trace.drop s.trace.length →
      saddr.sin_port = htons e.platform (int_port e p) ∧
      ntohs e.platform saddr.sin_port = int_port e p ∧
      ∃ he, e.gethostbyname h = some he ∧
        he.h_addr_list.head? = some saddr.sin_addr) := by
  have hmod : ∀ n : Nat, n ≤ 2147483647 → ∀ g : String,
      startsWithDigit g.toList = false → p = toString n ++ g →
      int_port e p = n % 65536 := by
    intro n hn g hg hp
    have hv := atoiValue_toString n g hg
    rw [← hp] at hv
    have := int_port_of_value e p (by omega)
    omega
  refine ⟨int_port_lt e p, int_port_of_value e p, ?_, ?_, ?_, ?_, ?_⟩
  · intro n g hn hg hp
    rw [hmod n (by omega) g hg hp]
    omega
  · intro n g hn hg hp
    exact hmod n hn g hg hp
  · intro n g hn hg hp
    have hv := atoiValue_neg_toString n g hg
    rw [← hp] at hv
    rw [int_port_of_value e p (by omega), hv]
  · intro hp
    have hv := atoiValue_no_number p hp
    have := int_port_of_value e p (by omega)
    omega
  · intro s c h v s1 fd saddr res hrun hmem
    obtain ⟨hport, hhe⟩ := sock_listen_bind_call e s c h p v s1 hrun fd saddr res hmem
    exact ⟨hport, by rw [hport]; exact ntohs_htons _ _ (int_port_lt e p), hhe⟩

/-- Witness for the amended C9 on `env_ok`: the texts `8080`, `80abc`,
`70000`, `-1` and `abc`, and the run for host `127.0.0.1`, port `8080`. -/
theorem sock_listen_bind_port_witness :
    int_port env_ok "8080" < 65536 ∧
    ((-2147483648 ≤ atoiValue "8080" ∧ atoiValue "8080" ≤ 2147483647) ∧
      (int_port env_ok "8080" : Int) = atoiValue "8080" % 65536) ∧
    (((80 : Nat) ≤ 65535 ∧ startsWithDigit "abc".toList = false ∧
        "80abc" = toString 80 ++ "abc") ∧ int_port env_ok "80abc" = 80) ∧
    (((70000 : Nat) ≤ 2147483647 ∧ startsWithDigit "".toList = false ∧
        "70000" = toString 70000 ++ "") ∧ int_port env_ok "70000" = 70000 % 65536) ∧
    (((1 : Nat) ≤ 2147483648 ∧ startsWithDigit "".toList = false ∧
        "-1" = "-" ++ (toString 1 ++ "")) ∧
      (int_port env_ok "-1" : Int) = (-((1 : Nat) : Int)) % 65536) ∧
    (startsWithNumber "abc" = false ∧ int_port env_ok "abc" = 0) ∧
    (nopoll_listener_sock_listen env_ok s0 (some ctx0) (some "127.0.0.1") (some "8080") =
        .ret 3
          { open_fds := insert 3 {0, 1, 2},
            trace := [Call.gethostbyname "127.0.0.1", Call.socket 3, Call.setsockopt 3,
              Call.bind 3 { sin_port := 36895, sin_addr := loopback } 0,
              Call.listen 3 5 0, Call.getsockname 3 0],
            heap := [] } ∧
      Call.bind 3 { sin_port := 36895, sin_addr := loopback } 0 ∈
        [Call.gethostbyname "127.0.0.1", Call.socket 3, Call.setsockopt 3,
          Call.bind 3 { sin_port := 36895, sin_addr := loopback } 0,
          Call.listen 3 5 0, Call.getsockname 3 0] ∧
      (36895 = htons env_ok.platform (int_port env_ok "8080") ∧
        ntohs env_ok.platform 36895 = int_port env_ok "8080" ∧
        ∃ he, env_ok.gethostbyname "127.0.0.1" = some he ∧
          he.h_addr_list.head? = some loopback)) :=
  ⟨(sock_listen_bind_port env_ok "8080").1,
    ⟨by decide, (sock_listen_bind_port env_ok "8080").2.1 (by decide)⟩,
    ⟨⟨by decide, by decide, by decide⟩,
      (sock_listen_bind_port env_ok "80abc").2.2.1 80 "abc" (by decide) (by decide)
        (by decide)⟩,
    ⟨⟨by decide, by decide, by decide⟩,
      (sock_listen_bind_port env_ok "70000").2.2.2.1 70000 "" (by decide) (by decide)
        (by decide)⟩,
    ⟨⟨by decide, by decide, by decide⟩,
      (sock_listen_bind_port env_ok "-1").2.2.2.2.1 1 "" (by decide) (by decide)
        (by decide)⟩,
    ⟨by decide, (sock_listen_bind_port env_ok "abc").2.2.2.2.2.1 (by decide)⟩,
    ⟨rfl, by decide,
      (sock_listen_bind_port env_ok "8080").2.2.2.2.2.2 s0 ctx0 "127.0.0.1" 3 _ 3
        { sin_port := 36895, sin_addr := loopback } 0 rfl (by decide)⟩⟩

end Nopoll
